import Mathlib

/-!
Verification development for the codex_change repository.

The repository ships a Windows-sandbox smoke-test harness
(`codex-rs/windows-sandbox-rs/sandbox_smoketests.py`) and npm packaging
scripts (`codex-cli/scripts/build_npm_package.py`).  The filesystem
access-control decision engine that the harness probes is described by the
specification but its code is not part of the available sources; it is
modelled here from the specification.  The Python harness and packaging
helpers are embedded directly from their sources.

Paths are modelled as lists of path components (the pieces between
backslashes of a Windows path), e.g. `C:\ws\f.txt` is
`["c:", "ws", "f.txt"]` after case folding.  The Windows device namespace
`\\.\name` appears as `["", "", ".", name]` and the long-path marker
`\\?\` as a leading `["", "", "?"]`, exactly as splitting the raw string
on backslashes produces.
-/

namespace CodexSandbox

/-- Modelled from the spec (§3): the classification a canonicalized path
carries.  The spec's `UncShare`/`LongPathEscape` classes are handled by
stripping the `\\?\` marker and letting UNC paths fall through the
ordinary root-membership check (§4.1: such paths are "only accepted if the
resolved target still falls inside a Root"), so only the four classes that
drive the decision remain. -/
inductive PathClass where
  | regular
  | device
  | namedPipe
  | alternateDataStream
deriving DecidableEq, Repr

/-- Modelled from the spec (§3): an absolute, reparse-point-resolved,
case-folded path tagged with its class. -/
structure CanonicalPath where
  comps : List String
  cls : PathClass
deriving DecidableEq, Repr

/-- Modelled from the spec (§4.1): resolution failures; always mapped to
Deny by the engine (§7, fail-closed). -/
inductive PathError where
  | unresolvedReparsePoint
  | inaccessible
deriving DecidableEq, Repr

/-- Modelled from the spec (§3): deny reason codes.  `resolutionFailure`
realises §7's "all PathError values are treated as Deny" and
`unknownMode` realises §6's "unknown modes fail closed". -/
inductive Reason where
  | outsideRoots
  | deviceOrPipe
  | alternateStream
  | protectedPathName
  | readOnlyMode
  | rootItselfUnsafe
  | resolutionFailure
  | unknownMode
deriving DecidableEq, Repr

/-- Modelled from the spec (§3): the decision returned by the engine. -/
inductive Decision where
  | allow
  | deny (r : Reason)
deriving DecidableEq, Repr

/-- Modelled from the spec (§3): the tagged policy variant.  Roots are
stored as canonical component lists (§4.2 passes each configured root through
the canonicalizer at construction time). -/
inductive Policy where
  | readOnly
  | workspaceWrite (roots : List (List String))
deriving DecidableEq, Repr

/-- Modelled from the spec (§6): the filesystem probe capability, reduced
to the reparse-target query the canonicalizer needs: for a canonical
component list, the absolute target it redirects to, or `none` when the
path is not a reparse point. -/
def Probe : Type := List String → Option (List String)

/-- A probe for a filesystem with no reparse points. -/
def noLinks : Probe := fun _ => none

/-- Modelled from the spec (§4.1): Windows case-insensitive comparison is
realised by folding every component to lower case. -/
def foldCase (s : String) : String := ⟨s.data.map Char.toLower⟩

/-- Modelled from the spec (§4.1): reserved DOS device names that classify
as `device` wherever they appear as a component. -/
def reservedDeviceNames : List String := ["con", "prn", "aux", "nul"]

/-- Modelled from the spec (§4.3 step 5): the fixed protected-name table,
case-normalized.  `.codex` covers the sandbox's own state directory
(policy/capability artifacts). -/
def protectedNames : List String := [".git", ".codex"]

/-- A drive designator component such as `c:`: a single character followed
by a colon. -/
def isDrive (c : String) : Bool :=
  match c.data with
  | [_, b] => b == ':'
  | _ => false

/-- Modelled from the spec (§4.1): a component carrying a colon-delimited
alternate-data-stream suffix (`f.txt:stream`); a bare drive designator is
not a stream. -/
def hasStreamColon (c : String) : Bool := c.data.contains ':' && !(isDrive c)

/-- Modelled from the spec (§4.1): the `\\?\` long-path marker is
normalized away before classification, so it can never bypass the
root-membership check. -/
def dropLongPathMarker : List String → List String
  | "" :: "" :: "?" :: rest => rest
  | comps => comps

/-- Modelled from the spec (§4.1): classify a case-folded component list.
`\\.\pipe\*` is a named pipe, any other `\\.\*` and reserved DOS names
are devices, a final component with a stream colon is an alternate data
stream, anything else is regular. -/
def classifyComps (comps : List String) : PathClass :=
  match comps with
  | "" :: "" :: "." :: rest =>
      if rest.head? = some "pipe" then .namedPipe else .device
  | _ =>
      if comps.any (fun c => reservedDeviceNames.contains c) then .device
      else
        match comps.getLast? with
        | some last => if hasStreamColon last then .alternateDataStream else .regular
        | none => .regular

/-- A component list is absolute when it starts with a drive designator. -/
def isAbsolute (comps : List String) : Bool :=
  match comps with
  | c :: _ => isDrive c
  | [] => false

/-- Modelled from the spec (§4.1): follow every reparse point to its final
target with a bounded budget, failing closed on cycles.  `acc` is the
already-resolved canonical ancestry; each component is checked against the
probe before being appended, and a reparse target restarts resolution from
its (case-folded) absolute components. -/
def resolveComps (probe : Probe) : Nat → List String → List String →
    Except PathError (List String)
  | 0, _, _ => .error .unresolvedReparsePoint
  | _ + 1, acc, [] => .ok acc
  | fuel + 1, acc, c :: rest =>
      if c = "" || c = "." then resolveComps probe fuel acc rest
      else if c = ".." then resolveComps probe fuel acc.dropLast rest
      else
        match probe (acc ++ [c]) with
        | some target => resolveComps probe fuel [] (target.map foldCase ++ rest)
        | none => resolveComps probe fuel (acc ++ [c]) rest

/-- Modelled from the spec (§4.1): `canonicalize(raw_path, cwd)`.  Strips
the long-path marker, folds case, classifies; device/pipe/stream forms are
returned unresolved (they are denied downstream regardless of roots, and a
stream's existence cannot be verified the way the base file can).  Regular
paths are resolved against `cwd` and every reparse point is followed; the
result is re-classified so a link cannot launder a special form. -/
def canonicalize (probe : Probe) (cwd : List String) (raw : List String) :
    Except PathError CanonicalPath :=
  let comps := (dropLongPathMarker raw).map foldCase
  match classifyComps comps with
  | .regular =>
      let absComps := if isAbsolute comps then comps else cwd ++ comps
      match resolveComps probe (absComps.length + 1024) [] absComps with
      | .ok r => .ok ⟨r, classifyComps r⟩
      | .error e => .error e
  | cls => .ok ⟨comps, cls⟩

/-- Modelled from the spec (§4.3): the decision for a single target.
Order of checks follows the algorithm: resolution failure → Deny (§7);
Device/NamedPipe → Deny; AlternateDataStream → Deny; ReadOnly → Deny for
every mutating operation; WorkspaceWrite → longest-root membership by
component-wise prefix (CWD is an implicit root, §4.2), then the
protected-name table, else Allow. -/
def decideTarget (policy : Policy) (cwd : List String) (probe : Probe)
    (raw : List String) : Decision :=
  match canonicalize probe cwd raw with
  | .error _ => .deny .resolutionFailure
  | .ok cp =>
      if cp.cls = .device ∨ cp.cls = .namedPipe then .deny .deviceOrPipe
      else if cp.cls = .alternateDataStream then .deny .alternateStream
      else
        match policy with
        | .readOnly => .deny .readOnlyMode
        | .workspaceWrite roots =>
            if (cwd :: roots).any (fun r => r.isPrefixOf cp.comps) then
              if cp.comps.any (fun c => protectedNames.contains c) then
                .deny .protectedPathName
              else .allow
            else .deny .outsideRoots

/-- Modelled from the spec (§3): the mutating operations, each carrying a
target; Rename carries a second target. -/
inductive Operation where
  | create (target : List String)
  | write (target : List String)
  | append (target : List String)
  | rename (src dst : List String)
  | delete (target : List String)
  | mkdir (target : List String)
deriving Repr

/-- Modelled from the spec (§4.3): `decide(op, policy, roots, probe)`.
For Rename both source and destination must independently pass. -/
def decideOp (op : Operation) (policy : Policy) (cwd : List String)
    (probe : Probe) : Decision :=
  match op with
  | .rename s d =>
      match decideTarget policy cwd probe s with
      | .allow => decideTarget policy cwd probe d
      | r => r
  | .create t => decideTarget policy cwd probe t
  | .write t => decideTarget policy cwd probe t
  | .append t => decideTarget policy cwd probe t
  | .delete t => decideTarget policy cwd probe t
  | .mkdir t => decideTarget policy cwd probe t

/-- Modelled from the spec (§6): the generalized input policy document
`{"mode": ..., "workspace_roots": [...]}`. -/
structure PolicyDoc where
  mode : String
  workspace_roots : List (List String)

/-- Modelled from the spec (§6, §9): the rule document compiles to the
same tagged `Policy`; a mode other than the two known strings does not
compile. -/
def compilePolicyDoc (doc : PolicyDoc) : Option Policy :=
  if doc.mode = "read-only" then some .readOnly
  else if doc.mode = "workspace-write" then some (.workspaceWrite doc.workspace_roots)
  else none

/-- Modelled from the spec (§6): deciding under a policy document; an
unknown mode fails closed, denying every mutating operation. -/
def decideDoc (doc : PolicyDoc) (op : Operation) (cwd : List String)
    (probe : Probe) : Decision :=
  match compilePolicyDoc doc with
  | some p => decideOp op p cwd probe
  | none => .deny .unknownMode

end CodexSandbox

namespace SmokeTests

/-- Embeds `CaseResult` from
`codex-rs/windows-sandbox-rs/sandbox_smoketests.py`. -/
structure CaseResult where
  name : String
  ok : Bool
  detail : String
deriving DecidableEq, Repr

/-- Embeds `summarize` from `sandbox_smoketests.py`:
`ok = sum(1 for r in results if r.ok)`, `total = len(results)`,
`return 0 if ok == total else 1` (the printing is I/O, not modelled). -/
def summarize (results : List CaseResult) : Nat :=
  let ok := results.countP (fun r => r.ok)
  let total := results.length
  if ok = total then 0 else 1

/-- Embeds `Path.as_posix()` as used by `run_sbx`: backslashes become
forward slashes. -/
def asPosix (p : String) : String :=
  ⟨p.data.map (fun c => if c = '\\' then '/' else c)⟩

/-- The config-override argument `run_sbx` builds from `additional_root`:
`sandbox_workspace_write.writable_roots=["<root as posix>"]`. -/
def writableRootsOverride (root : String) : String :=
  "sandbox_workspace_write.writable_roots=[\"" ++ asPosix root ++ "\"]"

/-- Embeds the argv construction of `run_sbx` from
`sandbox_smoketests.py` (the pure core; spawning the subprocess and the
environment dict are I/O).  Unknown policies raise `ValueError`, modelled
as `Except.error`; `workspace-write` maps to `--full-auto`; the
`additional_root` override is attached only under `workspace-write`.  The
leading `CODEX_CMD` prefix is host-dependent and omitted. -/
def run_sbx_argv (policy : String) (cmdArgv : List String)
    (additionalRoot : Option String) : Except String (List String) :=
  if policy = "read-only" ∨ policy = "workspace-write" then
    let policyFlags : List String :=
      if policy = "workspace-write" then ["--full-auto"] else []
    let overrides : List String :=
      if policy = "workspace-write" then
        match additionalRoot with
        | some r => ["-c", writableRootsOverride r]
        | none => []
      else []
    .ok (["sandbox", "windows"] ++ policyFlags ++ overrides ++ ["--"] ++ cmdArgv)
  else .error ("unknown policy: " ++ policy)

end SmokeTests

namespace NpmPackage

/-- The slice of filesystem state `prepare_staging_dir` observes: for a
directory path (as components), `some entries` when the directory exists
with those entries, `none` when absent. -/
def StagingFS : Type := List String → Option (List String)

/-- Embeds `Path.mkdir(parents=True, exist_ok=True)` as used by
`prepare_staging_dir`: an absent directory is created empty, an existing
one is left untouched. -/
def mkdirP (fs : StagingFS) (dir : List String) : StagingFS :=
  fun q => if q = dir then some ((fs dir).getD []) else fs q

/-- Embeds `tempfile.mkdtemp(prefix="codex-npm-stage-")`: a fresh empty
directory at a name not previously present. -/
def mkdtemp (fs : StagingFS) (tempDir : List String) : StagingFS :=
  fun q => if q = tempDir then some [] else fs q

/-- Embeds `prepare_staging_dir` from
`codex-cli/scripts/build_npm_package.py`.  With an explicit directory:
resolve (paths here are already canonical components), `mkdir(parents=True,
exist_ok=True)`, raise `RuntimeError` when `any(staging_dir.iterdir())`,
else return `(staging_dir, False)`.  With none: return a fresh
`mkdtemp` directory and `True`.  `tempDir` stands for the fresh name
`mkdtemp` picks. -/
def prepare_staging_dir (fs : StagingFS) (stagingDir : Option (List String))
    (tempDir : List String) : Except String (StagingFS × List String × Bool) :=
  match stagingDir with
  | some dir =>
      let fs' := mkdirP fs dir
      if ((fs' dir).getD []) ≠ [] then
        .error "Staging directory is not empty."
      else .ok (fs', dir, false)
  | none => .ok (mkdtemp fs tempDir, tempDir, true)

end NpmPackage

open CodexSandbox SmokeTests NpmPackage

/-- A probe for the reparse scenario of smoke test 29/30: the link
`C:\ws\link`, textually inside the workspace root, resolves to `C:\out`,
outside every root. -/
def probeLink : Probe :=
  fun p => if p = ["c:", "ws", "link"] then some ["c:", "out"] else none

/-- A staging filesystem with one non-empty directory `tmp\full`. -/
def fsW : StagingFS :=
  fun q => if q = ["tmp", "full"] then some ["x"] else none

/-- Helper: under the ReadOnly policy no single target is ever allowed —
every branch of `decideTarget` denies. -/
theorem decideTarget_readOnly_ne_allow (cwd : List String) (probe : Probe)
    (raw : List String) : decideTarget .readOnly cwd probe raw ≠ .allow := by
  unfold decideTarget
  rcases canonicalize probe cwd raw with e | cp
  · simp
  · by_cases h1 : cp.cls = .device ∨ cp.cls = .namedPipe
    · simp [h1]
    · by_cases h2 : cp.cls = .alternateDataStream <;> simp [h1, h2]

/-- C1: Under a WorkspaceWrite policy, for every target path, the decision
engine returns Allow iff the canonical (fully resolved) target has some
Root of the policy's Root Set (the implicit CWD root or a configured root)
among its ancestors AND the target is not classified Device, NamedPipe, or
AlternateDataStream and does not match a protected path name. -/
theorem workspaceWrite_allow_iff
    (probe : Probe) (cwd : List String) (roots : List (List String))
    (raw : List String) (cp : CanonicalPath)
    (h : canonicalize probe cwd raw = .ok cp) :
    decideTarget (.workspaceWrite roots) cwd probe raw = .allow ↔
      ((cwd :: roots).any (fun r => r.isPrefixOf cp.comps) = true ∧
       (cp.cls ≠ .device ∧ cp.cls ≠ .namedPipe ∧ cp.cls ≠ .alternateDataStream) ∧
       cp.comps.any (fun c => protectedNames.contains c) = false) := by
  unfold decideTarget
  rw [h]
  rcases cp with ⟨comps, cls⟩
  cases cls
  case regular =>
    cases hR : (cwd :: roots).any (fun r => r.isPrefixOf comps) <;>
      cases hP : comps.any (fun c => protectedNames.contains c) <;>
        simp [hR, hP]
    · simpa using hP
    · simpa using hP
  case device => simp
  case namedPipe => simp
  case alternateDataStream => simp

/-- Witness for C1: a write in the workspace CWD (`C:\ws\ws_ok.txt` with
cwd `C:\ws`, smoke test 2) is allowed, and a write outside every root
(`C:\outside\blocked.txt`, smoke test 3) is not. -/
theorem workspaceWrite_allow_iff_witness :
    decideTarget (.workspaceWrite []) ["c:", "ws"] noLinks
      ["c:", "ws", "ws_ok.txt"] = .allow ∧
    decideTarget (.workspaceWrite []) ["c:", "ws"] noLinks
      ["c:", "outside", "blocked.txt"] ≠ .allow := by
  constructor
  · exact (workspaceWrite_allow_iff noLinks ["c:", "ws"] [] ["c:", "ws", "ws_ok.txt"]
      ⟨["c:", "ws", "ws_ok.txt"], .regular⟩ (by rfl)).mpr (by decide)
  · intro hc
    have hiff := (workspaceWrite_allow_iff noLinks ["c:", "ws"] []
      ["c:", "outside", "blocked.txt"]
      ⟨["c:", "outside", "blocked.txt"], .regular⟩ (by rfl)).mp hc
    revert hiff
    decide

/-- C2: Under a ReadOnly policy, every mutating operation (Create, Write,
Append, Rename, Delete, Mkdir) on every path — however the path is
constructed, including paths under TEMP — is denied; no path produces
Allow. -/
theorem readOnly_denies_every_mutating_op (op : Operation) (cwd : List String)
    (probe : Probe) : decideOp op .readOnly cwd probe ≠ .allow := by
  cases op with
  | rename s d =>
      simp only [decideOp]
      rcases h : decideTarget .readOnly cwd probe s with _ | r
      · exact absurd h (decideTarget_readOnly_ne_allow cwd probe s)
      · simp
  | create t => exact decideTarget_readOnly_ne_allow cwd probe t
  | write t => exact decideTarget_readOnly_ne_allow cwd probe t
  | append t => exact decideTarget_readOnly_ne_allow cwd probe t
  | delete t => exact decideTarget_readOnly_ne_allow cwd probe t
  | mkdir t => exact decideTarget_readOnly_ne_allow cwd probe t

/-- C3: For every policy (ReadOnly or WorkspaceWrite, with any roots), any
operation whose target path is classified as a device name or named pipe
(e.g. `\\.\PhysicalDrive0`, `\\.\pipe\*`) is denied unconditionally; no
policy configuration can make such a target Allow. -/
theorem device_or_pipe_denied_any_policy
    (policy : Policy) (cwd : List String) (probe : Probe) (raw : List String)
    (h : classifyComps ((dropLongPathMarker raw).map foldCase) = .device ∨
         classifyComps ((dropLongPathMarker raw).map foldCase) = .namedPipe) :
    decideTarget policy cwd probe raw = .deny .deviceOrPipe := by
  unfold decideTarget canonicalize
  rcases h with h | h <;> simp [h]

/-- Witness for C3: the raw device `\\.\PhysicalDrive0` is denied under
ReadOnly and the named pipe `\\.\pipe\codex_testpipe` is denied under
WorkspaceWrite even with the whole drive configured as a root
(smoke test 31). -/
theorem device_or_pipe_denied_any_policy_witness :
    decideTarget .readOnly ["c:", "ws"] noLinks
      ["", "", ".", "PhysicalDrive0"] = .deny .deviceOrPipe ∧
    decideTarget (.workspaceWrite [["c:"]]) ["c:", "ws"] noLinks
      ["", "", ".", "pipe", "codex_testpipe"] = .deny .deviceOrPipe :=
  ⟨device_or_pipe_denied_any_policy .readOnly ["c:", "ws"] noLinks
      ["", "", ".", "PhysicalDrive0"] (Or.inl (by rfl)),
   device_or_pipe_denied_any_policy (.workspaceWrite [["c:"]]) ["c:", "ws"] noLinks
      ["", "", ".", "pipe", "codex_testpipe"] (Or.inr (by rfl))⟩

/-- C4: The allow/deny decision is a function of the resolved canonical
path, never of the requested path's literal text: whenever the requested
path is textually inside a Root but its canonical resolution (through a
symlink or junction) lies outside every Root, the write is denied with
OutsideRoots. -/
theorem resolved_path_governs_decision
    (probe : Probe) (cwd : List String) (roots : List (List String))
    (raw : List String) (cp : CanonicalPath)
    (hres : canonicalize probe cwd raw = .ok cp)
    (hreg : cp.cls = .regular)
    (hlit : (cwd :: roots).any
      (fun r => r.isPrefixOf ((dropLongPathMarker raw).map foldCase)) = true)
    (hout : (cwd :: roots).any (fun r => r.isPrefixOf cp.comps) = false) :
    decideTarget (.workspaceWrite roots) cwd probe raw = .deny .outsideRoots := by
  unfold decideTarget
  rw [hres]
  simp [hreg, hout]

/-- Witness for C4: the link `C:\ws\link` lies textually inside the
workspace root `C:\ws`, but `probeLink` resolves it to `C:\out`; writing
`C:\ws\link\f.txt` is denied (smoke tests 29/30). -/
theorem resolved_path_governs_decision_witness :
    decideTarget (.workspaceWrite []) ["c:", "ws"] probeLink
      ["c:", "ws", "link", "f.txt"] = .deny .outsideRoots :=
  resolved_path_governs_decision probeLink ["c:", "ws"] []
    ["c:", "ws", "link", "f.txt"] ⟨["c:", "out", "f.txt"], .regular⟩
    (by rfl) (by rfl) (by rfl) (by rfl)

/-- C5: Protected-name denial applies to every path whose canonical form
contains a protected component; canonicalization case-folds, so every case
variation of `.git` and paths under the sandbox's own `.codex` state
directory are denied even inside an allowed Root. -/
theorem protected_name_denied_inside_root
    (probe : Probe) (cwd : List String) (roots : List (List String))
    (raw : List String) (cp : CanonicalPath)
    (hres : canonicalize probe cwd raw = .ok cp)
    (hreg : cp.cls = .regular)
    (hin : (cwd :: roots).any (fun r => r.isPrefixOf cp.comps) = true)
    (hprot : cp.comps.any (fun c => protectedNames.contains c) = true) :
    decideTarget (.workspaceWrite roots) cwd probe raw = .deny .protectedPathName := by
  unfold decideTarget
  rw [hres]
  simp [hreg, hin, hprot]
  simpa using hprot

/-- Witness for C5: `.GiT` and `.GIT` under the allowed root `C:\ws`
canonicalize to `.git` and are denied (smoke test 33); `.codex\policy.json`
inside the root is denied as sandbox-state tampering (smoke test 34). -/
theorem protected_name_denied_inside_root_witness :
    decideTarget (.workspaceWrite []) ["c:", "ws"] noLinks
      ["c:", "ws", ".GiT", "config"] = .deny .protectedPathName ∧
    decideTarget (.workspaceWrite []) ["c:", "ws"] noLinks
      ["c:", "ws", ".GIT", "config"] = .deny .protectedPathName ∧
    decideTarget (.workspaceWrite []) ["c:", "ws"] noLinks
      ["c:", "ws", ".codex", "policy.json"] = .deny .protectedPathName :=
  ⟨protected_name_denied_inside_root noLinks ["c:", "ws"] []
      ["c:", "ws", ".GiT", "config"] ⟨["c:", "ws", ".git", "config"], .regular⟩
      (by rfl) (by rfl) (by rfl) (by rfl),
   protected_name_denied_inside_root noLinks ["c:", "ws"] []
      ["c:", "ws", ".GIT", "config"] ⟨["c:", "ws", ".git", "config"], .regular⟩
      (by rfl) (by rfl) (by rfl) (by rfl),
   protected_name_denied_inside_root noLinks ["c:", "ws"] []
      ["c:", "ws", ".codex", "policy.json"] ⟨["c:", "ws", ".codex", "policy.json"], .regular⟩
      (by rfl) (by rfl) (by rfl) (by rfl)⟩

/-- C6: For a file inside a Root under WorkspaceWrite, a write to an
alternate-data-stream form of that file (the final component extended with
a colon-delimited stream suffix) is denied with AlternateStream even
though the base file itself is allowed. -/
theorem ads_denied_even_when_base_allowed
    (probe : Probe) (cwd : List String) (roots : List (List String))
    (dir : List String) (f stream : String) (cpa : CanonicalPath)
    (hbase : decideTarget (.workspaceWrite roots) cwd probe (dir ++ [f]) = .allow)
    (hads : canonicalize probe cwd (dir ++ [f ++ ":" ++ stream]) = .ok cpa)
    (hcls : cpa.cls = .alternateDataStream) :
    decideTarget (.workspaceWrite roots) cwd probe (dir ++ [f ++ ":" ++ stream]) =
      .deny .alternateStream := by
  unfold decideTarget
  rw [hads]
  simp [hcls]

/-- Witness for C6: `C:\ws\f.txt` is allowed under the workspace root, but
`C:\ws\f.txt:hidden` is denied as an alternate data stream
(smoke test 32). -/
theorem ads_denied_even_when_base_allowed_witness :
    decideTarget (.workspaceWrite []) ["c:", "ws"] noLinks
      ["c:", "ws", "f.txt:hidden"] = .deny .alternateStream :=
  ads_denied_even_when_base_allowed noLinks ["c:", "ws"] [] ["c:", "ws"]
    "f.txt" "hidden" ⟨["c:", "ws", "f.txt:hidden"], .alternateDataStream⟩
    (by rfl) (by rfl) (by rfl)

/-- C7: For every policy mode string other than "read-only" and
"workspace-write", the system fails closed: the modelled engine denies
every mutating operation under the uncompilable policy document, and the
harness's `run_sbx` refuses to build a command line at all (ValueError),
rather than the unknown mode being silently ignored or treated as some
default. -/
theorem unknown_mode_fails_closed :
    (∀ (doc : PolicyDoc) (op : Operation) (cwd : List String) (probe : Probe),
        doc.mode ≠ "read-only" → doc.mode ≠ "workspace-write" →
        decideDoc doc op cwd probe = .deny .unknownMode) ∧
    (∀ (policy : String) (cmdArgv : List String) (root : Option String),
        policy ≠ "read-only" → policy ≠ "workspace-write" →
        run_sbx_argv policy cmdArgv root = .error ("unknown policy: " ++ policy)) := by
  constructor
  · intro doc op cwd probe h1 h2
    unfold decideDoc compilePolicyDoc
    simp [h1, h2]
  · intro policy cmdArgv root h1 h2
    unfold run_sbx_argv
    simp [h1, h2]

/-- Witness for C7: the mode "danger-full-access" is neither known policy
string; the engine denies a write inside the workspace and `run_sbx`
rejects the policy. -/
theorem unknown_mode_fails_closed_witness :
    decideDoc ⟨"danger-full-access", []⟩ (.write ["c:", "ws", "x.txt"])
      ["c:", "ws"] noLinks = .deny .unknownMode ∧
    run_sbx_argv "danger-full-access" ["cmd"] none =
      .error ("unknown policy: " ++ "danger-full-access") :=
  ⟨unknown_mode_fails_closed.1 ⟨"danger-full-access", []⟩
      (.write ["c:", "ws", "x.txt"]) ["c:", "ws"] noLinks (by decide) (by decide),
   unknown_mode_fails_closed.2 "danger-full-access" ["cmd"] none
      (by decide) (by decide)⟩

/-- C8: `run_sbx` applies the additional writable root (the
`sandbox_workspace_write.writable_roots` config override) only when the
policy is "workspace-write"; for every call with policy "read-only" a
supplied `additional_root` is silently ignored — the built argv is
identical to the one without it and carries no override flag — while under
"workspace-write" the override is attached. -/
theorem additional_root_only_for_workspace_write :
    (∀ (root : String) (cmdArgv : List String),
        run_sbx_argv "read-only" cmdArgv (some root) =
          run_sbx_argv "read-only" cmdArgv none ∧
        run_sbx_argv "read-only" cmdArgv (some root) =
          .ok (["sandbox", "windows", "--"] ++ cmdArgv)) ∧
    (∀ (root : String) (cmdArgv : List String),
        run_sbx_argv "workspace-write" cmdArgv (some root) =
          .ok (["sandbox", "windows", "--full-auto", "-c",
                writableRootsOverride root, "--"] ++ cmdArgv)) :=
  ⟨fun _ _ => ⟨rfl, rfl⟩, fun _ _ => rfl⟩

/-- C9: For every list of case results, `summarize` returns 0 iff every
result in the list has `ok` true (in particular it returns 0 for the empty
list), and returns 1 otherwise. -/
theorem summarize_zero_iff_all_ok (results : List CaseResult) :
    (summarize results = 0 ↔ ∀ r ∈ results, r.ok = true) ∧
    (summarize results = 0 ∨ summarize results = 1) := by
  unfold summarize
  constructor
  · by_cases hc : results.countP (fun r => r.ok) = results.length
    · simp only [hc, if_pos rfl]
      simpa using List.countP_eq_length.mp hc
    · simp only [if_neg hc]
      constructor
      · intro h; exact absurd h one_ne_zero
      · intro hall; exact absurd (List.countP_eq_length.mpr (by simpa using hall)) hc
  · by_cases hc : results.countP (fun r => r.ok) = results.length <;> simp [hc]

/-- C10: `prepare_staging_dir`, when given an explicit staging directory,
creates it if absent and raises RuntimeError if the directory contains any
entry, returning it with `created_temp` false exactly when it is empty;
when given no directory, it returns a freshly created (empty) temporary
directory with `created_temp` true. -/
theorem prepare_staging_dir_spec (fs : StagingFS) (dir tempDir : List String) :
    (fs dir = none → mkdirP fs dir dir = some []) ∧
    (prepare_staging_dir fs (some dir) tempDir =
        .ok (mkdirP fs dir, dir, false) ↔ (fs dir).getD [] = []) ∧
    ((fs dir).getD [] ≠ [] →
      prepare_staging_dir fs (some dir) tempDir =
        .error "Staging directory is not empty.") ∧
    (prepare_staging_dir fs none tempDir =
        .ok (mkdtemp fs tempDir, tempDir, true) ∧
      mkdtemp fs tempDir tempDir = some []) := by
  refine ⟨fun h => by simp [mkdirP, h], ?_, fun h => ?_, rfl, by simp [mkdtemp]⟩
  · by_cases he : (fs dir).getD [] = [] <;>
      simp [prepare_staging_dir, mkdirP, he]
  · simp [prepare_staging_dir, mkdirP, h]

/-- Witness for C10: on a filesystem where only `tmp\full` exists (with
one entry), an explicit absent directory `stage` is created and returned
with `created_temp` false, the non-empty `tmp\full` raises, and omitting
the directory returns the fresh temporary directory with `created_temp`
true. -/
theorem prepare_staging_dir_spec_witness :
    prepare_staging_dir fsW (some ["stage"]) ["tmpnew"] =
      .ok (mkdirP fsW ["stage"], ["stage"], false) ∧
    prepare_staging_dir fsW (some ["tmp", "full"]) ["tmpnew"] =
      .error "Staging directory is not empty." ∧
    prepare_staging_dir fsW none ["tmpnew"] =
      .ok (mkdtemp fsW ["tmpnew"], ["tmpnew"], true) :=
  ⟨(prepare_staging_dir_spec fsW ["stage"] ["tmpnew"]).2.1.mpr (by rfl),
   (prepare_staging_dir_spec fsW ["tmp", "full"] ["tmpnew"]).2.2.1 (by decide),
   (prepare_staging_dir_spec fsW ["tmp", "full"] ["tmpnew"]).2.2.2.1⟩

/-- Witness for C2: a write in the workspace CWD itself is denied under
ReadOnly (smoke test 1). -/
theorem readOnly_denies_every_mutating_op_witness :
    decideOp (.write ["c:", "ws", "ro_should_fail.txt"]) .readOnly
      ["c:", "ws"] noLinks ≠ .allow :=
  readOnly_denies_every_mutating_op (.write ["c:", "ws", "ro_should_fail.txt"])
    ["c:", "ws"] noLinks

/-- Witness for C8: under "read-only" a supplied additional root changes
nothing about the argv, while under "workspace-write" it is attached as a
config override (smoke tests 3b/3c). -/
theorem additional_root_only_for_workspace_write_witness :
    run_sbx_argv "read-only" ["cmd"] (some "C:\\Users\\u\\WorkspaceRoot") =
      run_sbx_argv "read-only" ["cmd"] none ∧
    run_sbx_argv "workspace-write" ["cmd"] (some "C:\\Users\\u\\WorkspaceRoot") =
      .ok ["sandbox", "windows", "--full-auto", "-c",
           writableRootsOverride "C:\\Users\\u\\WorkspaceRoot", "--", "cmd"] :=
  ⟨(additional_root_only_for_workspace_write.1 "C:\\Users\\u\\WorkspaceRoot" ["cmd"]).1,
   additional_root_only_for_workspace_write.2 "C:\\Users\\u\\WorkspaceRoot" ["cmd"]⟩

/-- Witness for C9: the empty run summarizes to 0, and a run with one
failing case summarizes to 1. -/
theorem summarize_zero_iff_all_ok_witness :
    summarize [] = 0 ∧
    summarize [⟨"a", true, ""⟩, ⟨"b", false, ""⟩] = 1 := by
  constructor
  · exact (summarize_zero_iff_all_ok []).1.mpr (by simp)
  · refine ((summarize_zero_iff_all_ok _).2).resolve_left ?_
    intro h0
    have hall := (summarize_zero_iff_all_ok _).1.mp h0 ⟨"b", false, ""⟩ (by simp)
    simp at hall
